import Mathlib

/-!
Verification of the geospatial-to-mesh pipeline in `src/app.py` (an OSM 3D
map exporter).  The Python functions are shallowly embedded into Lean:
numeric values carried by floats are idealised as real numbers (exact
rationals for raw JSON payloads), Python's `int()` truncation is modelled
explicitly, dictionary access and third-party library calls that may raise
are modelled as `Option`/`Except` computations.
-/

open Real

/-- Model of Python's `int()` applied to a float value: truncation toward
zero (floor for nonnegative arguments, ceiling for negative ones). -/
noncomputable def pyInt (r : ℝ) : ℤ := if 0 ≤ r then ⌊r⌋ else ⌈r⌉

/-- Model of Python's `math.radians`. -/
noncomputable def pyRadians (x : ℝ) : ℝ := x * π / 180

/-- Model of Python's `math.degrees`. -/
noncomputable def pyDegrees (x : ℝ) : ℝ := x * 180 / π

/-- The real value computed inside `long2tile` (src/app.py line 39) before
the `int(...)` truncation. -/
noncomputable def long2tileReal (lon : ℝ) (zoom : ℕ) : ℝ :=
  (lon + 180) / 360 * 2 ^ zoom

/-- Function `long2tile` (src/app.py lines 37-39): longitude to tile X index. -/
noncomputable def long2tile (lon : ℝ) (zoom : ℕ) : ℤ :=
  pyInt (long2tileReal lon zoom)

/-- The real value computed inside `lat2tile` (src/app.py line 44) before
the `int(...)` truncation. -/
noncomputable def lat2tileReal (lat : ℝ) (zoom : ℕ) : ℝ :=
  (1 - Real.log (Real.tan (pyRadians lat) + 1 / Real.cos (pyRadians lat)) / π) / 2 * 2 ^ zoom

/-- Function `lat2tile` (src/app.py lines 41-44): latitude to tile Y index. -/
noncomputable def lat2tile (lat : ℝ) (zoom : ℕ) : ℤ :=
  pyInt (lat2tileReal lat zoom)

/-- Function `tile2long` (src/app.py lines 46-48): tile X to longitude. -/
noncomputable def tile2long (x : ℝ) (zoom : ℕ) : ℝ :=
  x / 2 ^ zoom * 360 - 180

/-- Function `tile2lat` (src/app.py lines 50-53): tile Y to latitude. -/
noncomputable def tile2lat (y : ℝ) (zoom : ℕ) : ℝ :=
  pyDegrees (Real.arctan (Real.sinh (π - 2 * π * y / 2 ^ zoom)))

/-- A geographic rectangle `(west, south, east, north)` in degrees, the
`bbox` tuples of src/app.py. -/
structure GeoRect where
  west : ℝ
  south : ℝ
  east : ℝ
  north : ℝ

/-- Function `get_tiles_for_bbox` (src/app.py lines 55-64): the covering tile range
`(min_x, min_y, max_x, max_y)`; the Y range is flipped. -/
noncomputable def get_tiles_for_bbox (b : GeoRect) (zoom : ℕ) : ℤ × ℤ × ℤ × ℤ :=
  (long2tile b.west zoom, lat2tile b.north zoom, long2tile b.east zoom, lat2tile b.south zoom)

/-- The tile-grid bounding box computed in `get_perfect_map_texture`
(src/app.py lines 156-164): inverse tile math on the grid corners, `+1` on
the max corner. -/
noncomputable def tiles_bbox_of (b : GeoRect) (zoom : ℕ) : GeoRect :=
  { west := tile2long (long2tile b.west zoom) zoom
    south := tile2lat ((lat2tile b.south zoom : ℝ) + 1) zoom
    east := tile2long ((long2tile b.east zoom : ℝ) + 1) zoom
    north := tile2lat (lat2tile b.north zoom) zoom }

/-- Function `crop_image_to_exact_bbox` (src/app.py lines 105-138), reduced to the
crop-rectangle computation: returns `(crop_left, crop_right, crop_top,
crop_bottom)` after the clamping steps of lines 130-133. -/
noncomputable def crop_image_to_exact_bbox (user_bbox tiles_bbox : GeoRect)
    (image_width image_height : ℤ) : ℤ × ℤ × ℤ × ℤ :=
  let xw := (user_bbox.west - tiles_bbox.west) / (tiles_bbox.east - tiles_bbox.west)
  let crop_left := pyInt (xw * image_width)
  let xe := (user_bbox.east - tiles_bbox.west) / (tiles_bbox.east - tiles_bbox.west)
  let crop_right := pyInt (xe * image_width)
  let yn := (tiles_bbox.north - user_bbox.north) / (tiles_bbox.north - tiles_bbox.south)
  let crop_top := pyInt (yn * image_height)
  let ys := (tiles_bbox.north - user_bbox.south) / (tiles_bbox.north - tiles_bbox.south)
  let crop_bottom := pyInt (ys * image_height)
  let crop_left := max 0 (min crop_left (image_width - 1))
  let crop_right := max (crop_left + 1) (min crop_right image_width)
  let crop_top := max 0 (min crop_top (image_height - 1))
  let crop_bottom := max (crop_top + 1) (min crop_bottom image_height)
  (crop_left, crop_right, crop_top, crop_bottom)

/-- One line of the emitted OBJ mesh document.  Numeric payloads are kept
as exact reals (the source's `:.3f` decimal formatting is presentation
only); blank lines of the Python line lists are elided. -/
inductive ObjLine where
  | comment (s : String)
  | v (x y z : ℝ)
  | vt (u w : ℝ)
  | mtllib (s : String)
  | usemtl (s : String)
  | g (s : String)
  | f (idx : List ℕ)
  | fvt (idx : List (ℕ × ℕ))

/-- Function `lat_lon_to_meters` (src/app.py lines 177-189): equirectangular local
projection around a shared origin. -/
noncomputable def lat_lon_to_meters (lat lon origin_lat origin_lon : ℝ) : ℝ × ℝ :=
  let R : ℝ := 6378137
  (R * (pyRadians lon - pyRadians origin_lon) * Real.cos (pyRadians origin_lat),
    R * (pyRadians lat - pyRadians origin_lat))

/-- Function `create_perfect_ground_plane` (src/app.py lines 191-230): the ground
quad as OBJ lines plus its vertex count 4. -/
noncomputable def create_perfect_ground_plane (b : GeoRect) : List ObjLine × ℕ :=
  let origin_lat := (b.south + b.north) / 2
  let origin_lon := (b.west + b.east) / 2
  let sw := lat_lon_to_meters b.south b.west origin_lat origin_lon
  let se := lat_lon_to_meters b.south b.east origin_lat origin_lon
  let nw := lat_lon_to_meters b.north b.west origin_lat origin_lon
  let ne := lat_lon_to_meters b.north b.east origin_lat origin_lon
  ([ObjLine.comment "Perfect Aligned Ground Plane",
    ObjLine.comment "Bbox", ObjLine.comment "Origin",
    ObjLine.v sw.1 sw.2 (-0.1), ObjLine.v se.1 se.2 (-0.1),
    ObjLine.v ne.1 ne.2 (-0.1), ObjLine.v nw.1 nw.2 (-0.1),
    ObjLine.vt 0 0, ObjLine.vt 1 0, ObjLine.vt 1 1, ObjLine.vt 0 1,
    ObjLine.usemtl "ground_texture", ObjLine.g "ground_plane",
    ObjLine.comment "Two triangles forming the ground rectangle",
    ObjLine.fvt [(1, 1), (2, 2), (3, 3)], ObjLine.fvt [(1, 1), (3, 3), (4, 4)]], 4)

/-- The vertex (`v`) lines of an OBJ line list, in order. -/
def vertexLines (ls : List ObjLine) : List (ℝ × ℝ × ℝ) :=
  ls.filterMap fun l => match l with
    | ObjLine.v x y z => some (x, y, z)
    | _ => none

/-- The UV (`vt`) lines of an OBJ line list, in order. -/
def uvLines (ls : List ObjLine) : List (ℝ × ℝ) :=
  ls.filterMap fun l => match l with
    | ObjLine.vt u w => some (u, w)
    | _ => none

/-- The plain (`f`) face lines of an OBJ line list, in order. -/
def faceLines (ls : List ObjLine) : List (List ℕ) :=
  ls.filterMap fun l => match l with
    | ObjLine.f idx => some idx
    | _ => none

/-- The textured (`f v/vt`) face lines of an OBJ line list, in order. -/
def fvtLines (ls : List ObjLine) : List (List (ℕ × ℕ)) :=
  ls.filterMap fun l => match l with
    | ObjLine.fvt idx => some idx
    | _ => none

/-- The vertex indices referenced by a face line (vertex part only). -/
def faceIndicesOf : ObjLine → List ℕ
  | ObjLine.f idx => idx
  | ObjLine.fvt idx => idx.map Prod.fst
  | _ => []

/-- The number of vertex (`v`) lines in an OBJ line list. -/
def countV : List ObjLine → ℕ
  | [] => 0
  | ObjLine.v _ _ _ :: rest => countV rest + 1
  | _ :: rest => countV rest

/-- Python dict lookup on a tag map, modelled as an association list. -/
def lookupTag (k : String) (tags : List (String × String)) : Option String :=
  (tags.find? fun p => p.1 == k).map Prod.snd

/-- The tag-value cleanup of src/app.py line 281:
`.replace('m', '').replace(' ', '')` — every `m` and every space removed. -/
def stripHeightVal (s : String) : String :=
  String.mk (s.toList.filter fun c => !(c == 'm' || c == ' '))

/-- Decimal digit test on a character (ASCII 48-57). -/
def isDigitCh (c : Char) : Bool := 48 ≤ c.toNat && c.toNat ≤ 57

/-- The value of a nonempty all-digit character run, `none` otherwise. -/
def digitsVal? (cs : List Char) : Option ℕ :=
  if cs.isEmpty then none
  else cs.foldl (fun acc? c => match acc? with
    | some acc => if isDigitCh c then some (10 * acc + (c.toNat - 48)) else none
    | none => none) (some 0)

/-- An optionally signed nonempty digit run as an integer. -/
def signedVal? (cs : List Char) : Option ℤ :=
  match cs with
  | '-' :: rest => (digitsVal? rest).map fun n => -(n : ℤ)
  | '+' :: rest => (digitsVal? rest).map fun n => (n : ℤ)
  | _ => (digitsVal? cs).map fun n => (n : ℤ)

/-- Split a character run at its first dot, when any. -/
def splitAtDot : List Char → List Char × Option (List Char)
  | [] => ([], none)
  | c :: rest =>
    if c == '.' then ([], some rest)
    else
      let r := splitAtDot rest
      (c :: r.1, r.2)

/-- Model of Python's `float()` builtin on the decimal string literals that
occur in height tags: an optional sign, digits, optionally a dot and a
nonempty digit run.  Returns the exact rational value, `none` on parse
failure. -/
def parseFloat? (s : String) : Option ℚ :=
  let r := splitAtDot s.toList
  match r.2 with
  | none => (signedVal? r.1).map fun n => (n : ℚ)
  | some fp =>
    match signedVal? r.1, digitsVal? fp with
    | some n, some m =>
      some ((n : ℚ) + (if r.1.head? = some '-' then -1 else 1) * (m : ℚ) / 10 ^ fp.length)
    | _, _ => none

/-- Model of Python's `int()` builtin on a string: decimal integer literal
with optional sign, `none` on parse failure. -/
def parseInt? (s : String) : Option ℤ := signedVal? s.toList

/-- The height resolution of `create_building_geometry` (src/app.py lines
276-289): prefer `building:height` (cleaned, parsed as float, floored at
2.0, falling back to the job default on parse failure), else
`building:levels` (parsed as int, times 3.5, floored at 2.0, falling back
on parse failure), else the job-wide default. -/
def resolveHeight (tags : List (String × String)) (building_height : ℚ) : ℚ :=
  match lookupTag "building:height" tags with
  | some hv =>
    match parseFloat? (stripHeightVal hv) with
    | some q => max q 2
    | none => building_height
  | none =>
    match lookupTag "building:levels" tags with
    | some lv =>
      match parseInt? lv with
      | some n => max ((n : ℚ) * 3.5) 2
      | none => building_height
    | none => building_height

/-- The simplification-tolerance policy table of src/app.py line 238,
including the `.get` default 1.0. -/
def simplification_tolerance (quality : String) : ℚ :=
  if quality = "low" then 2 else if quality = "medium" then 1
  else if quality = "high" then 0.3 else 1

/-- The minimum-area policy table of src/app.py line 239, including the
`.get` default 10.0. -/
def min_area_threshold (quality : String) : ℚ :=
  if quality = "low" then 25 else if quality = "medium" then 10
  else if quality = "high" then 5 else 10

/-- One node of an element's `geometry` array.  A `none` field models a
record lacking that key, so that reading it raises `KeyError`.  Raw JSON
numbers are modelled as exact rationals. -/
structure OsmNode where
  lon? : Option ℚ
  lat? : Option ℚ

/-- One Overpass element: a free-form tag map and an optional `geometry`
array (`none` models an element without the `geometry` key). -/
structure OsmElement where
  tags : List (String × String)
  geometry? : Option (List OsmNode)

/-- The guard of src/app.py line 242: `element.get('tags', {}).get('building')`
is truthy (tag present with a non-empty value). -/
def buildingTagged (e : OsmElement) : Bool :=
  match lookupTag "building" e.tags with
  | some bv => bv != ""
  | none => false

/-- The coordinate extraction of src/app.py line 245:
`[(node['lon'], node['lat']) for node in element['geometry']]`.  A missing
key raises `KeyError`; this happens before (outside) the per-footprint
`try`. -/
def extractCoords (geom : List OsmNode) : Except String (List (ℚ × ℚ)) :=
  geom.mapM fun nd => match nd.lon?, nd.lat? with
    | some lo, some la => Except.ok (lo, la)
    | _, _ => Except.error "KeyError"

/-- The closing-duplicate removal of src/app.py lines 249-250: drop the
trailing vertex when it equals the first. -/
def dropClosingDup (cs : List (ℚ × ℚ)) : List (ℚ × ℚ) :=
  if cs.head? = cs.getLast? then cs.dropLast else cs

/-- Interface of the external planar-geometry library (shapely) as used by
`create_building_geometry`: polygon validity, polygon area, and
topology-preserving simplification.  `simplify` returns `some ring` for the
exterior ring (minus the closing vertex) of a `Polygon` result and `none`
when the simplification degenerates to a non-polygon; every operation may
raise, modelled by `Except`.  Area values, being floats, are modelled as
rationals so the source's comparison against the threshold is exact. -/
structure GeomLib where
  isValid : List (ℝ × ℝ) → Except String Bool
  area : List (ℝ × ℝ) → Except String ℚ
  simplify : ℚ → List (ℝ × ℝ) → Except String (Option (List (ℝ × ℝ)))

/-- The projection loop of src/app.py lines 256-259: every raw `(lon, lat)`
pair converted with `lat_lon_to_meters` at the shared origin. -/
noncomputable def projectCoords (origin_lat origin_lon : ℝ) (coords : List (ℚ × ℚ)) :
    List (ℝ × ℝ) :=
  coords.map fun c => lat_lon_to_meters (c.2 : ℝ) (c.1 : ℝ) origin_lat origin_lon

/-- The body of the per-footprint `try` block up to height resolution
(src/app.py lines 254-289): project the ring with the shared origin, build
the polygon, filter on validity/area, simplify (falling back to the
unsimplified ring when the result is not a polygon), filter on the
simplified length, and resolve the height.  `Except.error` models an
exception inside the `try`; `Except.ok none` models the `continue`
filters. -/
noncomputable def processFootprint (lib : GeomLib) (origin_lat origin_lon : ℝ)
    (building_height : ℚ) (quality : String) (coords : List (ℚ × ℚ))
    (tags : List (String × String)) : Except String (Option (List (ℝ × ℝ) × ℚ)) := do
  let local_coords := projectCoords origin_lat origin_lon coords
  let valid ← lib.isValid local_coords
  let a ← lib.area local_coords
  if valid = false ∨ a < min_area_threshold quality then
    return none
  else
    let simplifyRes ← lib.simplify (simplification_tolerance quality) local_coords
    let simplified_coords := match simplifyRes with
      | some ring => ring
      | none => local_coords
    if simplified_coords.length < 3 then
      return none
    else
      return some (simplified_coords, resolveHeight tags building_height)

/-- The vertex-emission loop of src/app.py lines 292-302: for each ring
vertex, append a base vertex line at z = 0 and a top vertex line at
z = height, recording the 1-based indices; returns the new lines, the base
index list, the top index list and the updated vertex counter. -/
noncomputable def emitRingVerts : List (ℝ × ℝ) → ℝ → ℕ → List ObjLine × List ℕ × List ℕ × ℕ
  | [], _, vc => ([], [], [], vc)
  | p :: rest, h, vc =>
    let r := emitRingVerts rest h (vc + 2)
    (ObjLine.v p.1 p.2 0 :: ObjLine.v p.1 p.2 h :: r.1,
      (vc + 1) :: r.2.1, (vc + 2) :: r.2.2.1, r.2.2.2)

/-- The wall-face loop of src/app.py lines 319-325: one quadrilateral per
ring edge, `(v_base[i], v_base[i+1], v_top[i+1], v_top[i])` cyclically. -/
def wallFaces (base_vertices top_vertices : List ℕ) (n : ℕ) : List ObjLine :=
  (List.range n).map fun i =>
    ObjLine.f [base_vertices.getD i 0, base_vertices.getD ((i + 1) % n) 0,
      top_vertices.getD ((i + 1) % n) 0, top_vertices.getD i 0]

/-- The mutable state of `create_building_geometry`: the accumulated OBJ
lines, the global vertex counter (starting at 4, after the ground), and the
building counter. -/
structure BState where
  lines : List ObjLine
  vertex_count : ℕ
  building_count : ℕ

/-- The emission part of the loop body (src/app.py lines 291-325) for one
accepted footprint: interleaved base/top vertices, group and material
markers, bottom face in reversed winding, top face in forward winding, and
the wall quadrilaterals. -/
noncomputable def emitBuilding (st : BState) (simplified_coords : List (ℝ × ℝ))
    (height : ℚ) : BState :=
  let r := emitRingVerts simplified_coords (height : ℝ) st.vertex_count
  let n := simplified_coords.length
  let base_vertices := r.2.1
  let top_vertices := r.2.2.1
  { lines := st.lines ++ r.1 ++
      [ObjLine.g ("building_" ++ toString (st.building_count + 1)),
        ObjLine.usemtl "building_material",
        ObjLine.f base_vertices.reverse, ObjLine.f top_vertices] ++
      wallFaces base_vertices top_vertices n
    vertex_count := r.2.2.2
    building_count := st.building_count + 1 }

/-- One iteration of the element loop of `create_building_geometry`
(src/app.py lines 241-328).  Coordinate extraction happens outside the
`try`, so its `KeyError` propagates (`Except.error`); an exception inside
`processFootprint` is caught and the footprint skipped. -/
noncomputable def buildStep (lib : GeomLib) (origin_lat origin_lon : ℝ)
    (building_height : ℚ) (quality : String) (st : BState) (e : OsmElement) :
    Except String BState :=
  match e.geometry? with
  | none => Except.ok st
  | some geom =>
    if buildingTagged e = false then Except.ok st
    else do
      let coords ← extractCoords geom
      if coords.length < 4 then return st
      else
        let coords := dropClosingDup coords
        if coords.length < 3 then return st
        else
          match processFootprint lib origin_lat origin_lon building_height quality
              coords e.tags with
          | Except.error _ => return st
          | Except.ok none => return st
          | Except.ok (some (ring, height)) => return emitBuilding st ring height

/-- Function `create_building_geometry` (src/app.py lines 232-330): fold the loop
body over the elements, starting after the ground plane's 4 vertices. -/
noncomputable def create_building_geometry (lib : GeomLib) (origin_lat origin_lon : ℝ)
    (building_height : ℚ) (quality : String) (elements : List OsmElement) :
    Except String BState :=
  elements.foldlM (buildStep lib origin_lat origin_lon building_height quality)
    { lines := [ObjLine.comment "Buildings positioned on perfect ground"]
      vertex_count := 4
      building_count := 0 }

/-- The OBJ-document assembly of `export_obj` (src/app.py lines 371,
390-406): header, ground plane, then the buildings of the
`building`-tagged elements, all sharing the bbox-midpoint origin. -/
noncomputable def scene_obj_lines (b : GeoRect) (lib : GeomLib) (building_height : ℚ)
    (quality : String) (elements : List OsmElement) : Except String (List ObjLine) := do
  let header := [ObjLine.comment "Perfect Aligned 3D Map", ObjLine.comment "User bbox",
    ObjLine.comment "Origin", ObjLine.mtllib "perfect_materials.mtl"]
  let ground := (create_perfect_ground_plane b).1
  let origin_lat := (b.south + b.north) / 2
  let origin_lon := (b.west + b.east) / 2
  let bst ← create_building_geometry lib origin_lat origin_lon building_height quality
    (elements.filter fun e => buildingTagged e)
  return header ++ ground ++ bst.lines

/-- A benign geometry library: every ring valid, area 100, simplification
degenerates (so the source falls back to the unsimplified ring). -/
def okLib : GeomLib where
  isValid := fun _ => Except.ok true
  area := fun _ => Except.ok 100
  simplify := fun _ _ => Except.ok none

/-- A geometry library whose validity check raises. -/
def failLib : GeomLib where
  isValid := fun _ => Except.error "TopologyException"
  area := fun _ => Except.ok 100
  simplify := fun _ _ => Except.ok none

/-- A well-formed 4-vertex footprint with a "9m" height tag. -/
def sqElement : OsmElement where
  tags := [("building", "yes"), ("building:height", "9m")]
  geometry? := some [⟨some 0, some 0⟩, ⟨some 1, some 0⟩, ⟨some 1, some 1⟩, ⟨some 0, some 1⟩]

/-- A closed footprint of 4 raw vertices whose last equals its first:
3 unique vertices after closing-duplicate removal. -/
def triElement : OsmElement where
  tags := [("building", "yes")]
  geometry? := some [⟨some 0, some 0⟩, ⟨some 1, some 0⟩, ⟨some 0, some 1⟩, ⟨some 0, some 0⟩]

/-- A building element whose first geometry record lacks the `lon` key. -/
def badNodeElement : OsmElement where
  tags := [("building", "yes")]
  geometry? := some [⟨none, some 0⟩, ⟨some 1, some 0⟩, ⟨some 1, some 1⟩, ⟨some 0, some 1⟩]

/-- The per-state invariant: the counter equals 4 plus the number of
emitted vertex lines, and every face references indices in
`[1, vertex_count]`. -/
def bInv (st : BState) : Prop :=
  st.vertex_count = 4 + countV st.lines ∧
    ∀ l ∈ st.lines, ∀ i ∈ faceIndicesOf l, 1 ≤ i ∧ i ≤ st.vertex_count

/- ### Theorems -/

theorem pyInt_intCast (n : ℤ) : pyInt n = n := by
  unfold pyInt; split <;> simp

theorem pyInt_le {r : ℝ} (h : 0 ≤ r) : (pyInt r : ℝ) ≤ r := by
  unfold pyInt
  rw [if_pos h]
  exact Int.floor_le r

theorem le_pyInt_add_one (r : ℝ) : r ≤ (pyInt r : ℝ) + 1 := by
  unfold pyInt
  split
  · exact (Int.lt_floor_add_one r).le
  · exact le_trans (Int.le_ceil r) (by norm_num)

theorem two_pow_ne_zero' (zoom : ℕ) : ((2 : ℝ) ^ zoom) ≠ 0 :=
  pow_ne_zero zoom two_ne_zero

theorem pyRadians_pyDegrees (t : ℝ) : pyRadians (pyDegrees t) = t := by
  unfold pyRadians pyDegrees
  field_simp

/-- The forward longitude conversion inverts the inverse one exactly over
the reals. -/
theorem long2tileReal_tile2long (xr : ℝ) (zoom : ℕ) :
    long2tileReal (tile2long xr zoom) zoom = xr := by
  unfold long2tileReal tile2long
  field_simp
  ring

/-- The forward latitude conversion inverts the inverse one exactly over
the reals. -/
theorem lat2tileReal_tile2lat (yr : ℝ) (zoom : ℕ) :
    lat2tileReal (tile2lat yr zoom) zoom = yr := by
  have hπ : (π : ℝ) ≠ 0 := Real.pi_ne_zero
  set n := π - 2 * π * yr / 2 ^ zoom with hn
  have hrad : pyRadians (tile2lat yr zoom) = Real.arctan (Real.sinh n) := by
    unfold tile2lat
    rw [pyRadians_pyDegrees, hn]
  unfold lat2tileReal
  rw [hrad, Real.tan_arctan, Real.cos_arctan]
  have hsq : (1 : ℝ) + Real.sinh n ^ 2 = Real.cosh n ^ 2 := by
    rw [Real.cosh_sq]; ring
  rw [hsq, Real.sqrt_sq (Real.cosh_pos n).le, one_div_one_div,
    Real.sinh_add_cosh, Real.log_exp, hn]
  have h2 : ((2 : ℝ) ^ zoom) ≠ 0 := two_pow_ne_zero' zoom
  field_simp
  ring

/-- C1: Tile math round-trip.  For every zoom `z ≥ 0` and integer tile
indices `0 ≤ x < 2^z`, `0 ≤ y < 2^z`, converting a tile index to a
geographic coordinate and back reproduces the index exactly:
`long2tile (tile2long x z) z = x` and `lat2tile (tile2lat y z) z = y`. -/
theorem C1_tile_roundtrip (zoom : ℕ) (x y : ℤ)
    (hx0 : 0 ≤ x) (hx : x < 2 ^ zoom) (hy0 : 0 ≤ y) (hy : y < 2 ^ zoom) :
    long2tile (tile2long (x : ℝ) zoom) zoom = x ∧
      lat2tile (tile2lat (y : ℝ) zoom) zoom = y := by
  constructor
  · unfold long2tile
    rw [long2tileReal_tile2long, pyInt_intCast]
  · unfold lat2tile
    rw [lat2tileReal_tile2lat, pyInt_intCast]

/-- Witness for C1 at zoom 0, `x = y = 0`. -/
theorem C1_tile_roundtrip_witness :
    ((0 : ℤ) ≤ 0 ∧ (0 : ℤ) < 2 ^ 0) ∧
      long2tile (tile2long ((0 : ℤ) : ℝ) 0) 0 = 0 ∧
      lat2tile (tile2lat ((0 : ℤ) : ℝ) 0) 0 = 0 :=
  ⟨⟨le_rfl, by norm_num⟩,
    C1_tile_roundtrip 0 0 0 le_rfl (by norm_num) le_rfl (by norm_num)⟩

theorem pyDegrees_pyRadians (t : ℝ) : pyDegrees (pyRadians t) = t := by
  unfold pyRadians pyDegrees
  field_simp

theorem tile2long_long2tileReal (lon : ℝ) (zoom : ℕ) :
    tile2long (long2tileReal lon zoom) zoom = lon := by
  unfold tile2long long2tileReal
  field_simp
  ring

theorem tile2long_mono {a b : ℝ} (zoom : ℕ) (h : a ≤ b) :
    tile2long a zoom ≤ tile2long b zoom := by
  unfold tile2long
  have h2 : (0 : ℝ) < 2 ^ zoom := by positivity
  gcongr

theorem tile2lat_antitone {a b : ℝ} (zoom : ℕ) (h : a ≤ b) :
    tile2lat b zoom ≤ tile2lat a zoom := by
  unfold tile2lat pyDegrees
  have h2 : (0 : ℝ) < 2 ^ zoom := by positivity
  have hπ := Real.pi_pos
  have harg : π - 2 * π * b / 2 ^ zoom ≤ π - 2 * π * a / 2 ^ zoom := by
    have hab : 2 * π * a / 2 ^ zoom ≤ 2 * π * b / 2 ^ zoom := by gcongr
    linarith
  have hmono : Real.arctan (Real.sinh (π - 2 * π * b / 2 ^ zoom)) ≤
      Real.arctan (Real.sinh (π - 2 * π * a / 2 ^ zoom)) :=
    Real.arctan_strictMono.monotone (Real.sinh_le_sinh.mpr harg)
  gcongr

/-- The hyperbolic form of the latitude conversion: `arctan ∘ sinh` inverts
the inverse Gudermannian `log (tan + sec)` on `(-π/2, π/2)`. -/
theorem arctan_sinh_log_tan_add_sec {lr : ℝ} (h1 : -(π / 2) < lr) (h2 : lr < π / 2) :
    Real.arctan (Real.sinh (Real.log (Real.tan lr + 1 / Real.cos lr))) = lr := by
  have hcos : 0 < Real.cos lr := Real.cos_pos_of_mem_Ioo ⟨h1, h2⟩
  have hsin : -1 < Real.sin lr := by
    have hs := Real.strictMonoOn_sin (Set.mem_Icc.mpr ⟨le_rfl, by linarith⟩)
      (Set.mem_Icc.mpr ⟨h1.le, h2.le⟩) h1
    rwa [Real.sin_neg, Real.sin_pi_div_two] at hs
  have hu : 0 < Real.tan lr + 1 / Real.cos lr := by
    rw [Real.tan_eq_sin_div_cos, div_add_div_same]
    exact div_pos (by linarith) hcos
  have hinv : (Real.tan lr + 1 / Real.cos lr)⁻¹ = 1 / Real.cos lr - Real.tan lr := by
    refine inv_eq_of_mul_eq_one_right ?_
    rw [Real.tan_eq_sin_div_cos]
    field_simp
    nlinarith [Real.sin_sq_add_cos_sq lr]
  have hsinh : Real.sinh (Real.log (Real.tan lr + 1 / Real.cos lr)) = Real.tan lr := by
    rw [Real.sinh_eq, Real.exp_log hu, Real.exp_neg, Real.exp_log hu, hinv]
    ring
  rw [hsinh, Real.arctan_tan h1 h2]

/-- The inverse latitude conversion inverts the (real-valued) forward one on
the open latitude band `(-90, 90)`. -/
theorem tile2lat_lat2tileReal (lat : ℝ) (zoom : ℕ) (h1 : -90 < lat) (h2 : lat < 90) :
    tile2lat (lat2tileReal lat zoom) zoom = lat := by
  have hπ := Real.pi_pos
  have hlr1 : -(π / 2) < pyRadians lat := by
    unfold pyRadians; nlinarith
  have hlr2 : pyRadians lat < π / 2 := by
    unfold pyRadians; nlinarith
  have harg : π - 2 * π * lat2tileReal lat zoom / 2 ^ zoom =
      Real.log (Real.tan (pyRadians lat) + 1 / Real.cos (pyRadians lat)) := by
    unfold lat2tileReal
    have h2z : ((2 : ℝ) ^ zoom) ≠ 0 := two_pow_ne_zero' zoom
    field_simp
    ring
  unfold tile2lat
  rw [harg, arctan_sinh_log_tan_add_sec hlr1 hlr2, pyDegrees_pyRadians]

/-- C2 (amended): Mosaic coverage.  For a GeoRect with `west < east`,
`south < north` that lies in the tile-math domain (`-180 ≤ west`,
`-90 < south`, `north < 90`, and `north` within the Web-Mercator band, i.e.
the real-valued forward tile index of `north` is nonnegative), the tile-grid
bounding box of `get_perfect_map_texture` contains the GeoRect. -/
theorem C2_mosaic_coverage (b : GeoRect) (zoom : ℕ)
    (hwe : b.west < b.east) (hsn : b.south < b.north)
    (hw : -180 ≤ b.west) (hs : -90 < b.south) (hn : b.north < 90)
    (hmerc : 0 ≤ lat2tileReal b.north zoom) :
    (tiles_bbox_of b zoom).west ≤ b.west ∧
      (tiles_bbox_of b zoom).south ≤ b.south ∧
      b.east ≤ (tiles_bbox_of b zoom).east ∧
      b.north ≤ (tiles_bbox_of b zoom).north := by
  refine ⟨?_, ?_, ?_, ?_⟩
  · show tile2long (long2tile b.west zoom) zoom ≤ b.west
    have hv : 0 ≤ long2tileReal b.west zoom := by
      unfold long2tileReal
      have : (0 : ℝ) ≤ (b.west + 180) / 360 := by linarith [div_nonneg (by linarith : (0:ℝ) ≤ b.west + 180) (by norm_num : (0:ℝ) ≤ 360)]
      positivity
    calc tile2long (long2tile b.west zoom) zoom
        ≤ tile2long (long2tileReal b.west zoom) zoom :=
          tile2long_mono zoom (pyInt_le hv)
      _ = b.west := tile2long_long2tileReal b.west zoom
  · show tile2lat ((lat2tile b.south zoom : ℝ) + 1) zoom ≤ b.south
    calc tile2lat ((lat2tile b.south zoom : ℝ) + 1) zoom
        ≤ tile2lat (lat2tileReal b.south zoom) zoom :=
          tile2lat_antitone zoom (le_pyInt_add_one _)
      _ = b.south := tile2lat_lat2tileReal b.south zoom hs (by linarith)
  · show b.east ≤ tile2long ((long2tile b.east zoom : ℝ) + 1) zoom
    calc b.east = tile2long (long2tileReal b.east zoom) zoom :=
          (tile2long_long2tileReal b.east zoom).symm
      _ ≤ tile2long ((long2tile b.east zoom : ℝ) + 1) zoom :=
          tile2long_mono zoom (le_pyInt_add_one _)
  · show b.north ≤ tile2lat (lat2tile b.north zoom) zoom
    calc b.north = tile2lat (lat2tileReal b.north zoom) zoom :=
          (tile2lat_lat2tileReal b.north zoom (by linarith) hn).symm
      _ ≤ tile2lat (lat2tile b.north zoom) zoom :=
          tile2lat_antitone zoom (pyInt_le hmerc)

/-- Counterexample for C2 as stated: the GeoRect `(-270, 0, -269, 1)`
satisfies `west < east` and `south < north`, yet at zoom 0 the tile-grid
bounding box does not contain it: Python's `int()` truncates the negative
forward value `-0.25` toward zero, so `tiles_west = -180 > -270 = west`. -/
theorem C2_counterexample :
    (GeoRect.mk (-270) 0 (-269) 1).west < (GeoRect.mk (-270) 0 (-269) 1).east ∧
      (GeoRect.mk (-270) 0 (-269) 1).south < (GeoRect.mk (-270) 0 (-269) 1).north ∧
      ¬ ((tiles_bbox_of (GeoRect.mk (-270) 0 (-269) 1) 0).west ≤
            (GeoRect.mk (-270) 0 (-269) 1).west ∧
          (tiles_bbox_of (GeoRect.mk (-270) 0 (-269) 1) 0).south ≤
            (GeoRect.mk (-270) 0 (-269) 1).south ∧
          (GeoRect.mk (-270) 0 (-269) 1).east ≤
            (tiles_bbox_of (GeoRect.mk (-270) 0 (-269) 1) 0).east ∧
          (GeoRect.mk (-270) 0 (-269) 1).north ≤
            (tiles_bbox_of (GeoRect.mk (-270) 0 (-269) 1) 0).north) := by
  refine ⟨by norm_num, by norm_num, ?_⟩
  rintro ⟨hW, -, -, -⟩
  have h1 : long2tileReal (-270 : ℝ) 0 = -(1 / 4) := by
    unfold long2tileReal; norm_num
  have h2 : long2tile (-270 : ℝ) 0 = 0 := by
    unfold long2tile pyInt
    rw [h1, if_neg (by norm_num)]
    rw [Int.ceil_eq_zero_iff]
    constructor <;> norm_num
  have h3 : (tiles_bbox_of (GeoRect.mk (-270) 0 (-269) 1) 0).west = -180 := by
    show tile2long (long2tile (-270 : ℝ) 0) 0 = -180
    rw [h2]
    unfold tile2long
    norm_num
  rw [h3] at hW
  norm_num at hW

/-- Witness for C2 at the GeoRect `(0, -1, 1, 0)` and zoom 0. -/
theorem C2_mosaic_coverage_witness :
    ((0 : ℝ) < 1 ∧ (-1 : ℝ) < 0 ∧ (-180 : ℝ) ≤ 0 ∧ (-90 : ℝ) < -1 ∧ (0 : ℝ) < 90 ∧
        0 ≤ lat2tileReal 0 0) ∧
      ((tiles_bbox_of (GeoRect.mk 0 (-1) 1 0) 0).west ≤ 0 ∧
        (tiles_bbox_of (GeoRect.mk 0 (-1) 1 0) 0).south ≤ -1 ∧
        (1 : ℝ) ≤ (tiles_bbox_of (GeoRect.mk 0 (-1) 1 0) 0).east ∧
        (0 : ℝ) ≤ (tiles_bbox_of (GeoRect.mk 0 (-1) 1 0) 0).north) := by
  have hfrac : lat2tileReal 0 0 = 1 / 2 := by
    unfold lat2tileReal pyRadians
    rw [(by ring : (0 : ℝ) * π / 180 = 0)]
    rw [Real.tan_zero, Real.cos_zero]
    norm_num
  refine ⟨⟨by norm_num, by norm_num, by norm_num, by norm_num, by norm_num, by rw [hfrac]; norm_num⟩, ?_⟩
  exact C2_mosaic_coverage (GeoRect.mk 0 (-1) 1 0) 0 (by norm_num) (by norm_num)
    (by norm_num) (by norm_num) (by norm_num) (by rw [hfrac]; norm_num)

/-- C3: Crop bounds.  For a mosaic of positive pixel width and height and
any user GeoRect and TilesBbox with `tiles_west < tiles_east` and
`tiles_south < tiles_north`, the computed crop rectangle satisfies
`0 ≤ left < right ≤ width` and `0 ≤ top < bottom ≤ height`. -/
theorem C3_crop_bounds (user_bbox tiles_bbox : GeoRect) (image_width image_height : ℤ)
    (hW : 0 < image_width) (hH : 0 < image_height)
    (hwe : tiles_bbox.west < tiles_bbox.east) (hsn : tiles_bbox.south < tiles_bbox.north) :
    0 ≤ (crop_image_to_exact_bbox user_bbox tiles_bbox image_width image_height).1 ∧
      (crop_image_to_exact_bbox user_bbox tiles_bbox image_width image_height).1 <
        (crop_image_to_exact_bbox user_bbox tiles_bbox image_width image_height).2.1 ∧
      (crop_image_to_exact_bbox user_bbox tiles_bbox image_width image_height).2.1 ≤
        image_width ∧
      0 ≤ (crop_image_to_exact_bbox user_bbox tiles_bbox image_width image_height).2.2.1 ∧
      (crop_image_to_exact_bbox user_bbox tiles_bbox image_width image_height).2.2.1 <
        (crop_image_to_exact_bbox user_bbox tiles_bbox image_width image_height).2.2.2 ∧
      (crop_image_to_exact_bbox user_bbox tiles_bbox image_width image_height).2.2.2 ≤
        image_height := by
  unfold crop_image_to_exact_bbox
  dsimp only
  omega

/-- Witness for C3 at a 256 by 256 mosaic. -/
theorem C3_crop_bounds_witness :
    ((0 : ℤ) < 256 ∧ (GeoRect.mk (-1) (-1) 2 2).west < (GeoRect.mk (-1) (-1) 2 2).east ∧
        (GeoRect.mk (-1) (-1) 2 2).south < (GeoRect.mk (-1) (-1) 2 2).north) ∧
      (0 ≤ (crop_image_to_exact_bbox (GeoRect.mk 0 0 1 1) (GeoRect.mk (-1) (-1) 2 2) 256 256).1 ∧
        (crop_image_to_exact_bbox (GeoRect.mk 0 0 1 1) (GeoRect.mk (-1) (-1) 2 2) 256 256).1 <
          (crop_image_to_exact_bbox (GeoRect.mk 0 0 1 1) (GeoRect.mk (-1) (-1) 2 2) 256 256).2.1 ∧
        (crop_image_to_exact_bbox (GeoRect.mk 0 0 1 1) (GeoRect.mk (-1) (-1) 2 2) 256 256).2.1 ≤ 256 ∧
        0 ≤ (crop_image_to_exact_bbox (GeoRect.mk 0 0 1 1) (GeoRect.mk (-1) (-1) 2 2) 256 256).2.2.1 ∧
        (crop_image_to_exact_bbox (GeoRect.mk 0 0 1 1) (GeoRect.mk (-1) (-1) 2 2) 256 256).2.2.1 <
          (crop_image_to_exact_bbox (GeoRect.mk 0 0 1 1) (GeoRect.mk (-1) (-1) 2 2) 256 256).2.2.2 ∧
        (crop_image_to_exact_bbox (GeoRect.mk 0 0 1 1) (GeoRect.mk (-1) (-1) 2 2) 256 256).2.2.2 ≤ 256) :=
  ⟨⟨by norm_num, by norm_num, by norm_num⟩,
    C3_crop_bounds (GeoRect.mk 0 0 1 1) (GeoRect.mk (-1) (-1) 2 2) 256 256
      (by norm_num) (by norm_num) (by norm_num) (by norm_num)⟩

/-- C4: Alignment invariant.  For every GeoRect the emitted ground plane
has exactly 4 vertices in the order SW, SE, NE, NW (each corner projected
with the shared bbox-midpoint origin) at z = -0.1, UV coordinates
(0,0), (1,0), (1,1), (0,1) paired in the same order, and the two faces
(1,2,3) and (1,3,4). -/
theorem C4_ground_plane_alignment (b : GeoRect) :
    vertexLines (create_perfect_ground_plane b).1 =
      [((lat_lon_to_meters b.south b.west ((b.south + b.north) / 2) ((b.west + b.east) / 2)).1,
        (lat_lon_to_meters b.south b.west ((b.south + b.north) / 2) ((b.west + b.east) / 2)).2,
        -0.1),
       ((lat_lon_to_meters b.south b.east ((b.south + b.north) / 2) ((b.west + b.east) / 2)).1,
        (lat_lon_to_meters b.south b.east ((b.south + b.north) / 2) ((b.west + b.east) / 2)).2,
        -0.1),
       ((lat_lon_to_meters b.north b.east ((b.south + b.north) / 2) ((b.west + b.east) / 2)).1,
        (lat_lon_to_meters b.north b.east ((b.south + b.north) / 2) ((b.west + b.east) / 2)).2,
        -0.1),
       ((lat_lon_to_meters b.north b.west ((b.south + b.north) / 2) ((b.west + b.east) / 2)).1,
        (lat_lon_to_meters b.north b.west ((b.south + b.north) / 2) ((b.west + b.east) / 2)).2,
        -0.1)] ∧
      uvLines (create_perfect_ground_plane b).1 = [(0, 0), (1, 0), (1, 1), (0, 1)] ∧
      fvtLines (create_perfect_ground_plane b).1 =
        [[(1, 1), (2, 2), (3, 3)], [(1, 1), (3, 3), (4, 4)]] ∧
      (create_perfect_ground_plane b).2 = 4 := by
  refine ⟨?_, ?_, ?_, ?_⟩ <;> rfl

theorem resolveHeight_of_height (tags : List (String × String)) (d : ℚ) (hv : String)
    (q : ℚ) (h1 : lookupTag "building:height" tags = some hv)
    (h2 : parseFloat? (stripHeightVal hv) = some q) :
    resolveHeight tags d = max q 2 := by
  unfold resolveHeight
  rw [h1]
  dsimp only
  rw [h2]

theorem resolveHeight_of_height_fail (tags : List (String × String)) (d : ℚ) (hv : String)
    (h1 : lookupTag "building:height" tags = some hv)
    (h2 : parseFloat? (stripHeightVal hv) = none) :
    resolveHeight tags d = d := by
  unfold resolveHeight
  rw [h1]
  dsimp only
  rw [h2]

theorem resolveHeight_of_levels (tags : List (String × String)) (d : ℚ) (lv : String)
    (n : ℤ) (h1 : lookupTag "building:height" tags = none)
    (h2 : lookupTag "building:levels" tags = some lv) (h3 : parseInt? lv = some n) :
    resolveHeight tags d = max ((n : ℚ) * 3.5) 2 := by
  unfold resolveHeight
  rw [h1]
  dsimp only
  rw [h2]
  dsimp only
  rw [h3]

theorem resolveHeight_of_no_tags (tags : List (String × String)) (d : ℚ)
    (h1 : lookupTag "building:height" tags = none)
    (h2 : lookupTag "building:levels" tags = none) :
    resolveHeight tags d = d := by
  unfold resolveHeight
  rw [h1]
  dsimp only
  rw [h2]

/-- C7: Height resolution.  An explicit `building:height` tag (cleaned and
parsed) wins and is floored at 2.0; otherwise a parsing `building:levels`
tag gives levels times 3.5 floored at 2.0; otherwise the job default.  In
particular "12.5 m" gives 12.5, levels "3" gives 10.5, and no tags give the
default. -/
theorem C7_height_resolution :
    (∀ d : ℚ, resolveHeight [("building:height", "12.5 m")] d = 12.5) ∧
      (∀ d : ℚ, resolveHeight [("building:levels", "3")] d = 10.5) ∧
      (∀ d : ℚ, resolveHeight [] d = d) ∧
      (∀ (tags : List (String × String)) (d : ℚ) (hv : String) (q : ℚ),
        lookupTag "building:height" tags = some hv →
        parseFloat? (stripHeightVal hv) = some q →
        resolveHeight tags d = max q 2) ∧
      (∀ (tags : List (String × String)) (d : ℚ) (lv : String) (n : ℤ),
        lookupTag "building:height" tags = none →
        lookupTag "building:levels" tags = some lv →
        parseInt? lv = some n →
        resolveHeight tags d = max ((n : ℚ) * 3.5) 2) ∧
      (∀ (tags : List (String × String)) (d : ℚ),
        lookupTag "building:height" tags = none →
        lookupTag "building:levels" tags = none →
        resolveHeight tags d = d) := by
  refine ⟨?_, ?_, ?_, resolveHeight_of_height, resolveHeight_of_levels,
    resolveHeight_of_no_tags⟩
  · intro d
    have hp : parseFloat? (stripHeightVal "12.5 m") =
        some (((12 : ℤ) : ℚ) + 1 * ((5 : ℕ) : ℚ) / 10 ^ 1) := rfl
    rw [resolveHeight_of_height [("building:height", "12.5 m")] d "12.5 m" _ rfl hp,
      max_eq_left (by norm_num)]
    norm_num
  · intro d
    have hp : parseInt? "3" = some 3 := rfl
    rw [resolveHeight_of_levels [("building:levels", "3")] d "3" 3 rfl rfl hp,
      max_eq_left (by norm_num)]
    norm_num
  · intro d
    rfl

/-- Witness for C7's conditional height clause at the tag map
`[("building:height", "12.5 m")]` and default 10. -/
theorem C7_height_resolution_witness :
    (lookupTag "building:height" [("building:height", "12.5 m")] = some "12.5 m" ∧
        parseFloat? (stripHeightVal "12.5 m") =
          some (((12 : ℤ) : ℚ) + 1 * ((5 : ℕ) : ℚ) / 10 ^ 1)) ∧
      resolveHeight [("building:height", "12.5 m")] 10 =
        max (((12 : ℤ) : ℚ) + 1 * ((5 : ℕ) : ℚ) / 10 ^ 1) 2 :=
  ⟨⟨rfl, rfl⟩,
    C7_height_resolution.2.2.2.1 [("building:height", "12.5 m")] 10 "12.5 m" _ rfl rfl⟩

/-- C10: If a `building:height` tag is present but fails to parse after the
cleanup, the resolved height is the job default; a `building:levels` tag on
the same footprint is never consulted, because the level branch is only
reached when the height tag is absent. -/
theorem C10_height_fallback_precedence :
    (∀ (tags : List (String × String)) (d : ℚ) (hv : String),
        lookupTag "building:height" tags = some hv →
        parseFloat? (stripHeightVal hv) = none →
        resolveHeight tags d = d) ∧
      (∀ d : ℚ, resolveHeight [("building:height", "abc"), ("building:levels", "3")] d = d) := by
  refine ⟨fun tags d hv h1 h2 => resolveHeight_of_height_fail tags d hv h1 h2, ?_⟩
  intro d
  rfl

/-- Witness for C10 at the tag map with an unparseable height "abc" and
levels "3": the default 10 is returned, not 10.5. -/
theorem C10_height_fallback_precedence_witness :
    (lookupTag "building:height" [("building:height", "abc"), ("building:levels", "3")] =
        some "abc" ∧
      parseFloat? (stripHeightVal "abc") = none) ∧
      resolveHeight [("building:height", "abc"), ("building:levels", "3")] 10 = 10 :=
  ⟨⟨rfl, rfl⟩,
    C10_height_fallback_precedence.1 [("building:height", "abc"), ("building:levels", "3")]
      10 "abc" rfl rfl⟩

theorem emitRingVerts_spec (h : ℝ) :
    ∀ (ring : List (ℝ × ℝ)) (vc : ℕ),
      emitRingVerts ring h vc =
        (ring.flatMap fun p => [ObjLine.v p.1 p.2 0, ObjLine.v p.1 p.2 h],
          (List.range ring.length).map (fun i => vc + 2 * i + 1),
          (List.range ring.length).map (fun i => vc + 2 * i + 2),
          vc + 2 * ring.length)
  | [], vc => by simp [emitRingVerts]
  | p :: rest, vc => by
    have ih := emitRingVerts_spec h rest (vc + 2)
    simp only [emitRingVerts, ih, List.flatMap_cons, List.length_cons, List.range_succ_eq_map,
      List.map_cons, List.map_map, Prod.mk.injEq, List.cons_append, List.nil_append]
    refine ⟨trivial, ?_, ?_, by omega⟩ <;>
      · refine congrArg₂ List.cons (by omega) ?_
        exact List.map_congr_left fun i _ => by simp only [Function.comp_apply]; omega

theorem foldlM_except_skip {α σ ε : Type _} (step : σ → α → Except ε σ) (e : α)
    (hskip : ∀ st, step st e = Except.ok st) :
    ∀ (es₁ es₂ : List α) (st : σ),
      List.foldlM step st (es₁ ++ e :: es₂) = List.foldlM step st (es₁ ++ es₂)
  | [], es₂, st => by
    simp only [List.nil_append, List.foldlM_cons, hskip st]
    rfl
  | a :: es₁, es₂, st => by
    simp only [List.cons_append, List.foldlM_cons]
    cases hsa : step st a with
    | error err => rfl
    | ok st₁ =>
      show List.foldlM step st₁ (es₁ ++ e :: es₂) = List.foldlM step st₁ (es₁ ++ es₂)
      exact foldlM_except_skip step e hskip es₁ es₂ st₁

theorem foldlM_except_preserve {α σ ε : Type _} (step : σ → α → Except ε σ) (P : σ → Prop)
    (hstep : ∀ st a st', step st a = Except.ok st' → P st → P st') :
    ∀ (es : List α) (st st' : σ), List.foldlM step st es = Except.ok st' → P st → P st'
  | [], st, st', h, hP => by
    simp only [List.foldlM_nil] at h
    cases h
    exact hP
  | a :: es, st, st', h, hP => by
    simp only [List.foldlM_cons] at h
    cases hsa : step st a with
    | error err =>
      rw [hsa] at h
      cases h
    | ok st₁ =>
      rw [hsa] at h
      exact foldlM_except_preserve step P hstep es st₁ st' h (hstep st a st₁ hsa hP)

theorem getD_range_map (f : ℕ → ℕ) (n j : ℕ) (hj : j < n) :
    ((List.range n).map f).getD j 0 = f j := by
  rw [List.getD_eq_getElem?_getD, List.getElem?_map, List.getElem?_range hj]
  rfl

theorem wallFaces_spec (vc n : ℕ) (hn : 0 < n) :
    wallFaces ((List.range n).map fun i => vc + 2 * i + 1)
        ((List.range n).map fun i => vc + 2 * i + 2) n =
      (List.range n).map fun i => ObjLine.f
        [vc + 2 * i + 1, vc + 2 * ((i + 1) % n) + 1,
          vc + 2 * ((i + 1) % n) + 2, vc + 2 * i + 2] := by
  unfold wallFaces
  refine List.map_congr_left fun i hi => ?_
  have hi' : i < n := List.mem_range.mp hi
  have h1 : (i + 1) % n < n := Nat.mod_lt _ hn
  rw [getD_range_map _ _ _ hi', getD_range_map _ _ _ h1,
    getD_range_map _ _ _ h1, getD_range_map _ _ _ hi']

/-- Full characterisation of the per-building emission. -/
theorem emitBuilding_spec (st : BState) (ring : List (ℝ × ℝ)) (height : ℚ) :
    emitBuilding st ring height =
      { lines := st.lines ++
          (ring.flatMap fun p => [ObjLine.v p.1 p.2 0, ObjLine.v p.1 p.2 (height : ℝ)]) ++
          [ObjLine.g ("building_" ++ toString (st.building_count + 1)),
            ObjLine.usemtl "building_material",
            ObjLine.f (((List.range ring.length).map fun i =>
              st.vertex_count + 2 * i + 1)).reverse,
            ObjLine.f ((List.range ring.length).map fun i => st.vertex_count + 2 * i + 2)] ++
          wallFaces ((List.range ring.length).map fun i => st.vertex_count + 2 * i + 1)
            ((List.range ring.length).map fun i => st.vertex_count + 2 * i + 2) ring.length
        vertex_count := st.vertex_count + 2 * ring.length
        building_count := st.building_count + 1 } := by
  unfold emitBuilding
  rw [emitRingVerts_spec (height : ℝ) ring st.vertex_count]

/-- C5: Extrusion emission.  For every accepted simplified ring with
`n ≥ 3` vertices the emission appends exactly n base vertices at z = 0
interleaved with n top vertices at z = height, one bottom face listing the
base ring in reversed winding, one top face in forward winding, and n wall
quadrilaterals `(v_base[i], v_base[i+1], v_top[i+1], v_top[i])` taken
cyclically; and the end-to-end job with one 4-vertex footprint yields 4
ground plus 8 building vertices, 2 ground faces, and 6 building faces:
roof, floor, and 4 walls. -/
theorem C5_extrusion_emission :
    (∀ (st : BState) (ring : List (ℝ × ℝ)) (height : ℚ) (n : ℕ),
        n = ring.length → 3 ≤ n →
        (emitBuilding st ring height).lines =
            st.lines ++
              (ring.flatMap fun p => [ObjLine.v p.1 p.2 0, ObjLine.v p.1 p.2 (height : ℝ)]) ++
              [ObjLine.g ("building_" ++ toString (st.building_count + 1)),
                ObjLine.usemtl "building_material",
                ObjLine.f (((List.range n).map fun i => st.vertex_count + 2 * i + 1)).reverse,
                ObjLine.f ((List.range n).map fun i => st.vertex_count + 2 * i + 2)] ++
              ((List.range n).map fun i => ObjLine.f
                [st.vertex_count + 2 * i + 1, st.vertex_count + 2 * ((i + 1) % n) + 1,
                  st.vertex_count + 2 * ((i + 1) % n) + 2, st.vertex_count + 2 * i + 2]) ∧
          (emitBuilding st ring height).vertex_count = st.vertex_count + 2 * n) ∧
      (∃ L, scene_obj_lines (GeoRect.mk 13.405 52.52 13.406 52.521) okLib 10 "medium"
            [sqElement] = Except.ok L ∧
        (vertexLines L).length = 12 ∧ (fvtLines L).length = 2 ∧
        faceLines L = [[11, 9, 7, 5], [6, 8, 10, 12], [5, 7, 8, 6], [7, 9, 10, 8],
          [9, 11, 12, 10], [11, 5, 6, 12]]) := by
  constructor
  · intro st ring height n hn h3
    subst hn
    rw [emitBuilding_spec, wallFaces_spec _ _ (by omega)]
    exact ⟨rfl, rfl⟩
  · exact ⟨_, rfl, rfl, rfl, rfl⟩

/-- Witness for C5's general clause at a concrete 4-vertex ring. -/
theorem C5_extrusion_emission_witness :
    ((4 : ℕ) = (projectCoords 0 0 [(0, 0), (1, 0), (1, 1), (0, 1)]).length ∧ (3 : ℕ) ≤ 4) ∧
      (emitBuilding (BState.mk [] 4 0)
          (projectCoords 0 0 [(0, 0), (1, 0), (1, 1), (0, 1)]) 9).vertex_count = 4 + 2 * 4 :=
  ⟨⟨rfl, by norm_num⟩,
    (C5_extrusion_emission.1 (BState.mk [] 4 0)
      (projectCoords 0 0 [(0, 0), (1, 0), (1, 1), (0, 1)]) 9 4 rfl (by norm_num)).2⟩

theorem except_bind_ok {ε α β : Type _} (a : α) (f : α → Except ε β) :
    (Except.ok (ε := ε) a >>= f) = f a := rfl

/-- A ring the library reports invalid, or whose area is below the
threshold, is never accepted by the `try`-block body. -/
theorem processFootprint_not_accept (lib : GeomLib) (olat olon : ℝ) (bh : ℚ) (q : String)
    (coords : List (ℚ × ℚ)) (tags : List (String × String))
    (h : lib.isValid (projectCoords olat olon coords) = Except.ok false ∨
      (∃ a, lib.area (projectCoords olat olon coords) = Except.ok a ∧
        a < min_area_threshold q)) (r : List (ℝ × ℝ) × ℚ) :
    processFootprint lib olat olon bh q coords tags ≠ Except.ok (some r) := by
  intro hcontra
  simp only [processFootprint] at hcontra
  cases hv : lib.isValid (projectCoords olat olon coords) with
  | error err => rw [hv] at hcontra; cases hcontra
  | ok valid =>
    rw [hv, except_bind_ok] at hcontra
    cases ha : lib.area (projectCoords olat olon coords) with
    | error err => rw [ha] at hcontra; cases hcontra
    | ok a =>
      rw [ha, except_bind_ok] at hcontra
      have hcond : valid = false ∨ a < min_area_threshold q := by
        rcases h with h | ⟨a', ha', hlt⟩
        · left; rw [hv] at h; exact (Except.ok.inj h)
        · right; rw [ha] at ha'; exact (Except.ok.inj ha') ▸ hlt
      rw [if_pos hcond] at hcontra
      exact Option.noConfusion (Except.ok.inj hcontra)

/-- A valid, large-enough ring whose simplification degenerates (so the
source falls back to the projected ring) is accepted with the resolved
height. -/
theorem processFootprint_accept (lib : GeomLib) (olat olon : ℝ) (bh : ℚ) (q : String)
    (coords : List (ℚ × ℚ)) (tags : List (String × String)) (a : ℚ)
    (hv : lib.isValid (projectCoords olat olon coords) = Except.ok true)
    (ha : lib.area (projectCoords olat olon coords) = Except.ok a)
    (hge : ¬ a < min_area_threshold q)
    (hs : lib.simplify (simplification_tolerance q) (projectCoords olat olon coords) =
      Except.ok none)
    (hlen : ¬ coords.length < 3) :
    processFootprint lib olat olon bh q coords tags =
      Except.ok (some (projectCoords olat olon coords, resolveHeight tags bh)) := by
  simp only [processFootprint]
  rw [hv, except_bind_ok, ha, except_bind_ok, if_neg (by simp [hge]), hs, except_bind_ok]
  have hlen' : ¬ (projectCoords olat olon coords).length < 3 := by
    simpa [projectCoords] using hlen
  rw [if_neg hlen']
  rfl

/-- An element whose raw ring is too short (fewer than 4 raw vertices, or
fewer than 3 after closing-duplicate removal) leaves the state unchanged. -/
theorem buildStep_skip_short (lib : GeomLib) (olat olon : ℝ) (bh : ℚ) (q : String)
    (st : BState) (e : OsmElement) (geom : List OsmNode) (cs : List (ℚ × ℚ))
    (hg : e.geometry? = some geom) (hcs : extractCoords geom = Except.ok cs)
    (h : cs.length < 4 ∨ (dropClosingDup cs).length < 3) :
    buildStep lib olat olon bh q st e = Except.ok st := by
  unfold buildStep
  rw [hg]
  dsimp only
  by_cases hb : buildingTagged e = false
  · rw [if_pos hb]
  · rw [if_neg hb]
    rw [hcs, except_bind_ok]
    by_cases h4 : cs.length < 4
    · rw [if_pos h4]; rfl
    · rw [if_neg h4]
      have h3 : (dropClosingDup cs).length < 3 := by
        rcases h with h | h
        · omega
        · exact h
      rw [if_pos h3]
      rfl

/-- An element whose deduplicated ring is never accepted by the
`try`-block body leaves the state unchanged. -/
theorem buildStep_skip_unaccepted (lib : GeomLib) (olat olon : ℝ) (bh : ℚ) (q : String)
    (st : BState) (e : OsmElement) (geom : List OsmNode) (cs : List (ℚ × ℚ))
    (hg : e.geometry? = some geom) (hcs : extractCoords geom = Except.ok cs)
    (h : ∀ r, processFootprint lib olat olon bh q (dropClosingDup cs) e.tags ≠
      Except.ok (some r)) :
    buildStep lib olat olon bh q st e = Except.ok st := by
  unfold buildStep
  rw [hg]
  dsimp only
  by_cases hb : buildingTagged e = false
  · rw [if_pos hb]
  · rw [if_neg hb]
    rw [hcs, except_bind_ok]
    by_cases h4 : cs.length < 4
    · rw [if_pos h4]; rfl
    · rw [if_neg h4]
      by_cases h3 : (dropClosingDup cs).length < 3
      · rw [if_pos h3]; rfl
      · rw [if_neg h3]
        cases hp : processFootprint lib olat olon bh q (dropClosingDup cs) e.tags with
        | error err => rfl
        | ok res =>
          cases res with
          | none => rfl
          | some r => exact absurd hp (h r)

/-- An accepted element appends exactly one building via `emitBuilding`. -/
theorem buildStep_accept (lib : GeomLib) (olat olon : ℝ) (bh : ℚ) (q : String)
    (st : BState) (e : OsmElement) (geom : List OsmNode) (cs : List (ℚ × ℚ))
    (ring : List (ℝ × ℝ)) (height : ℚ)
    (hg : e.geometry? = some geom) (hb : buildingTagged e = true)
    (hcs : extractCoords geom = Except.ok cs)
    (h4 : ¬ cs.length < 4) (h3 : ¬ (dropClosingDup cs).length < 3)
    (hp : processFootprint lib olat olon bh q (dropClosingDup cs) e.tags =
      Except.ok (some (ring, height))) :
    buildStep lib olat olon bh q st e = Except.ok (emitBuilding st ring height) := by
  unfold buildStep
  rw [hg]
  dsimp only
  rw [if_neg (by simp [hb])]
  rw [hcs, except_bind_ok, if_neg h4]
  rw [if_neg h3, hp]
  rfl

/-- C8: Footprint rejection.  Fewer than 4 raw vertices, or fewer than 3
after closing-duplicate removal, or an invalid polygon, or area below the
quality threshold (low 25, medium 10, high 5) are each rejected with no
change to the state; and a 3-unique-vertex valid ring with area above the
"high" threshold is kept (one building emitted). -/
theorem C8_footprint_rejection :
    (min_area_threshold "low" = 25 ∧ min_area_threshold "medium" = 10 ∧
        min_area_threshold "high" = 5) ∧
      (∀ (lib : GeomLib) (olat olon : ℝ) (bh : ℚ) (q : String) (st : BState)
          (e : OsmElement) (geom : List OsmNode) (cs : List (ℚ × ℚ)),
        e.geometry? = some geom → extractCoords geom = Except.ok cs → cs.length < 4 →
        buildStep lib olat olon bh q st e = Except.ok st) ∧
      (∀ (lib : GeomLib) (olat olon : ℝ) (bh : ℚ) (q : String) (st : BState)
          (e : OsmElement) (geom : List OsmNode) (cs : List (ℚ × ℚ)),
        e.geometry? = some geom → extractCoords geom = Except.ok cs →
        (dropClosingDup cs).length < 3 →
        buildStep lib olat olon bh q st e = Except.ok st) ∧
      (∀ (lib : GeomLib) (olat olon : ℝ) (bh : ℚ) (q : String) (st : BState)
          (e : OsmElement) (geom : List OsmNode) (cs : List (ℚ × ℚ)),
        e.geometry? = some geom → extractCoords geom = Except.ok cs →
        (lib.isValid (projectCoords olat olon (dropClosingDup cs)) = Except.ok false ∨
          (∃ a, lib.area (projectCoords olat olon (dropClosingDup cs)) = Except.ok a ∧
            a < min_area_threshold q)) →
        buildStep lib olat olon bh q st e = Except.ok st) ∧
      (∀ (lib : GeomLib) (olat olon : ℝ) (bh : ℚ) (st : BState)
          (e : OsmElement) (geom : List OsmNode) (cs : List (ℚ × ℚ)) (a : ℚ),
        e.geometry? = some geom → buildingTagged e = true →
        extractCoords geom = Except.ok cs →
        4 ≤ cs.length → (dropClosingDup cs).length = 3 →
        lib.isValid (projectCoords olat olon (dropClosingDup cs)) = Except.ok true →
        lib.area (projectCoords olat olon (dropClosingDup cs)) = Except.ok a →
        min_area_threshold "high" < a →
        lib.simplify (simplification_tolerance "high")
          (projectCoords olat olon (dropClosingDup cs)) = Except.ok none →
        ∃ st', buildStep lib olat olon bh "high" st e = Except.ok st' ∧
          st'.building_count = st.building_count + 1) := by
  refine ⟨⟨rfl, rfl, rfl⟩, ?_, ?_, ?_, ?_⟩
  · intro lib olat olon bh q st e geom cs hg hcs h4
    exact buildStep_skip_short lib olat olon bh q st e geom cs hg hcs (Or.inl h4)
  · intro lib olat olon bh q st e geom cs hg hcs h3
    exact buildStep_skip_short lib olat olon bh q st e geom cs hg hcs (Or.inr h3)
  · intro lib olat olon bh q st e geom cs hg hcs h
    exact buildStep_skip_unaccepted lib olat olon bh q st e geom cs hg hcs
      (processFootprint_not_accept lib olat olon bh q (dropClosingDup cs) e.tags h)
  · intro lib olat olon bh st e geom cs a hg hb hcs h4 h3 hv ha h5 hs
    have h4' : ¬ cs.length < 4 := by omega
    have h3' : ¬ (dropClosingDup cs).length < 3 := by omega
    have hp := processFootprint_accept lib olat olon bh "high" (dropClosingDup cs) e.tags a
      hv ha (lt_asymm h5) hs h3'
    exact ⟨emitBuilding st (projectCoords olat olon (dropClosingDup cs))
      (resolveHeight e.tags bh),
      buildStep_accept lib olat olon bh "high" st e geom cs _ _ hg hb hcs h4' h3' hp, rfl⟩

/-- Witness for C8's keep clause at the closed-triangle fixture. -/
theorem C8_footprint_rejection_witness :
    (triElement.geometry? =
        some [OsmNode.mk (some 0) (some 0), OsmNode.mk (some 1) (some 0),
          OsmNode.mk (some 0) (some 1), OsmNode.mk (some 0) (some 0)] ∧
      (dropClosingDup [((0 : ℚ), (0 : ℚ)), (1, 0), (0, 1), (0, 0)]).length = 3 ∧
      min_area_threshold "high" < 100) ∧
      (∃ st', buildStep okLib 0 0 10 "high" (BState.mk [] 4 0) triElement = Except.ok st' ∧
        st'.building_count = (BState.mk [] 4 0).building_count + 1) :=
  ⟨⟨rfl, rfl, by decide⟩,
    C8_footprint_rejection.2.2.2.2 okLib 0 0 10 (BState.mk [] 4 0) triElement
      [OsmNode.mk (some 0) (some 0), OsmNode.mk (some 1) (some 0),
        OsmNode.mk (some 0) (some 1), OsmNode.mk (some 0) (some 0)]
      [(0, 0), (1, 0), (0, 1), (0, 0)] 100
      rfl rfl rfl (by norm_num) rfl rfl rfl (by decide) rfl⟩

/-- C9 (amended): Per-footprint exception containment for the `try` block.
If processing a footprint's extracted ring raises inside the per-footprint
`try` (projection, polygon construction/validation, simplification, tag
handling — modelled by `processFootprint` returning an error), only that
footprint is skipped and the batch result is unchanged.  (Exceptions while
reading `lon`/`lat` from a malformed geometry record happen before the
`try` and are not contained; see the counterexample.) -/
theorem C9_exception_containment (lib : GeomLib) (olat olon : ℝ) (bh : ℚ) (q : String)
    (es₁ es₂ : List OsmElement) (e : OsmElement) (geom : List OsmNode)
    (cs : List (ℚ × ℚ)) (err : String)
    (hg : e.geometry? = some geom) (hcs : extractCoords geom = Except.ok cs)
    (hfail : processFootprint lib olat olon bh q (dropClosingDup cs) e.tags =
      Except.error err) :
    create_building_geometry lib olat olon bh q (es₁ ++ e :: es₂) =
      create_building_geometry lib olat olon bh q (es₁ ++ es₂) := by
  unfold create_building_geometry
  refine foldlM_except_skip _ e ?_ es₁ es₂ _
  intro st
  exact buildStep_skip_unaccepted lib olat olon bh q st e geom cs hg hcs
    fun r hr => by rw [hfail] at hr; cases hr

/-- Counterexample for C9 as stated: a batch with one malformed geometry
record (a node without the `lon` key) aborts entirely with the uncaught
`KeyError` — the remaining well-formed footprint, which alone yields one
building, is never processed. -/
theorem C9_counterexample :
    create_building_geometry okLib 0 0 10 "medium" [badNodeElement, sqElement] =
        Except.error "KeyError" ∧
      ∃ bst, create_building_geometry okLib 0 0 10 "medium" [sqElement] = Except.ok bst ∧
        bst.building_count = 1 :=
  ⟨rfl, ⟨_, rfl, rfl⟩⟩

/-- Witness for C9 with a geometry library whose validity check raises. -/
theorem C9_exception_containment_witness :
    (sqElement.geometry? =
        some [OsmNode.mk (some 0) (some 0), OsmNode.mk (some 1) (some 0),
          OsmNode.mk (some 1) (some 1), OsmNode.mk (some 0) (some 1)] ∧
      processFootprint failLib 0 0 10 "medium"
          (dropClosingDup [((0 : ℚ), (0 : ℚ)), (1, 0), (1, 1), (0, 1)]) sqElement.tags =
        Except.error "TopologyException") ∧
      create_building_geometry failLib 0 0 10 "medium" ([] ++ sqElement :: []) =
        create_building_geometry failLib 0 0 10 "medium" ([] ++ []) :=
  ⟨⟨rfl, rfl⟩,
    C9_exception_containment failLib 0 0 10 "medium" [] [] sqElement
      [OsmNode.mk (some 0) (some 0), OsmNode.mk (some 1) (some 0),
        OsmNode.mk (some 1) (some 1), OsmNode.mk (some 0) (some 1)]
      [((0 : ℚ), (0 : ℚ)), (1, 0), (1, 1), (0, 1)] "TopologyException" rfl rfl rfl⟩

theorem countV_append : ∀ (xs ys : List ObjLine), countV (xs ++ ys) = countV xs + countV ys
  | [], ys => by simp [countV]
  | l :: xs, ys => by
    cases l <;> simp [countV, countV_append xs ys] <;> omega

theorem countV_vpairs (h : ℝ) : ∀ ring : List (ℝ × ℝ),
    countV (ring.flatMap fun p => [ObjLine.v p.1 p.2 0, ObjLine.v p.1 p.2 h]) =
      2 * ring.length
  | [] => by simp [countV]
  | p :: rest => by
    rw [List.flatMap_cons, countV_append, countV_vpairs h rest,
      show countV [ObjLine.v p.1 p.2 0, ObjLine.v p.1 p.2 h] = 2 from rfl,
      List.length_cons]
    omega

theorem countV_map_f {α : Type _} (g : α → List ℕ) : ∀ l : List α,
    countV (l.map fun i => ObjLine.f (g i)) = 0
  | [] => rfl
  | x :: l => by simp only [List.map_cons, countV, countV_map_f g l]

theorem emitBuilding_preserves_inv (st : BState) (ring : List (ℝ × ℝ)) (height : ℚ)
    (hP : bInv st) : bInv (emitBuilding st ring height) := by
  obtain ⟨h1, h2⟩ := hP
  rw [bInv, emitBuilding_spec]
  constructor
  · show st.vertex_count + 2 * ring.length = 4 + countV _
    rw [countV_append, countV_append, countV_append, countV_vpairs]
    rw [show countV [ObjLine.g ("building_" ++ toString (st.building_count + 1)),
      ObjLine.usemtl "building_material",
      ObjLine.f (((List.range ring.length).map fun i =>
        st.vertex_count + 2 * i + 1)).reverse,
      ObjLine.f ((List.range ring.length).map fun i => st.vertex_count + 2 * i + 2)] = 0
      from rfl]
    unfold wallFaces
    rw [countV_map_f]
    omega
  · intro l hl i hi
    show 1 ≤ i ∧ i ≤ st.vertex_count + 2 * ring.length
    rw [List.mem_append] at hl
    rcases hl with hl | hwall
    · rw [List.mem_append] at hl
      rcases hl with hl | hmid
      · rw [List.mem_append] at hl
        rcases hl with hold | hv
        · have := h2 l hold i hi
          omega
        · rw [List.mem_flatMap] at hv
          obtain ⟨p, -, hv⟩ := hv
          simp only [List.mem_cons, List.not_mem_nil, or_false] at hv
          rcases hv with rfl | rfl <;> simp [faceIndicesOf] at hi
      · simp only [List.mem_cons, List.not_mem_nil, or_false] at hmid
        rcases hmid with rfl | rfl | rfl | rfl
        · simp [faceIndicesOf] at hi
        · simp [faceIndicesOf] at hi
        · simp only [faceIndicesOf, List.mem_reverse, List.mem_map,
            List.mem_range] at hi
          obtain ⟨j, hj, rfl⟩ := hi
          omega
        · simp only [faceIndicesOf, List.mem_map, List.mem_range] at hi
          obtain ⟨j, hj, rfl⟩ := hi
          omega
    · unfold wallFaces at hwall
      rw [List.mem_map] at hwall
      obtain ⟨j, hj, rfl⟩ := hwall
      rw [List.mem_range] at hj
      have hn : 0 < ring.length := by omega
      have hmod : (j + 1) % ring.length < ring.length := Nat.mod_lt _ hn
      rw [getD_range_map _ _ _ hj, getD_range_map _ _ _ hmod,
        getD_range_map _ _ _ hmod, getD_range_map _ _ _ hj] at hi
      simp only [faceIndicesOf, List.mem_cons, List.not_mem_nil, or_false] at hi
      rcases hi with rfl | rfl | rfl | rfl <;> omega

theorem except_bind_error {ε α β : Type _} (e : ε) (f : α → Except ε β) :
    (Except.error (α := α) e >>= f) = Except.error e := rfl

/-- Every successful loop iteration either leaves the state unchanged or
appends exactly one building. -/
theorem buildStep_cases (lib : GeomLib) (olat olon : ℝ) (bh : ℚ) (q : String)
    (st : BState) (e : OsmElement) (st' : BState)
    (h : buildStep lib olat olon bh q st e = Except.ok st') :
    st' = st ∨ ∃ ring height, st' = emitBuilding st ring height := by
  unfold buildStep at h
  cases hgeom : e.geometry? with
  | none => rw [hgeom] at h; left; exact (Except.ok.inj h).symm
  | some geom =>
    rw [hgeom] at h
    dsimp only at h
    by_cases hb : buildingTagged e = false
    · rw [if_pos hb] at h; left; exact (Except.ok.inj h).symm
    · rw [if_neg hb] at h
      cases hcs : extractCoords geom with
      | error err => rw [hcs, except_bind_error] at h; cases h
      | ok cs =>
        rw [hcs, except_bind_ok] at h
        by_cases h4 : cs.length < 4
        · rw [if_pos h4] at h; left; exact (Except.ok.inj h).symm
        · rw [if_neg h4] at h
          by_cases h3 : (dropClosingDup cs).length < 3
          · rw [if_pos h3] at h; left; exact (Except.ok.inj h).symm
          · rw [if_neg h3] at h
            cases hp : processFootprint lib olat olon bh q (dropClosingDup cs) e.tags with
            | error err => rw [hp] at h; left; exact (Except.ok.inj h).symm
            | ok res =>
              rw [hp] at h
              cases res with
              | none => left; exact (Except.ok.inj h).symm
              | some r =>
                obtain ⟨ring, height⟩ := r
                right
                exact ⟨ring, height, (Except.ok.inj h).symm⟩

theorem buildStep_preserves_inv (lib : GeomLib) (olat olon : ℝ) (bh : ℚ) (q : String) :
    ∀ (st : BState) (e : OsmElement) (st' : BState),
      buildStep lib olat olon bh q st e = Except.ok st' → bInv st → bInv st' := by
  intro st e st' h hP
  rcases buildStep_cases lib olat olon bh q st e st' h with rfl | ⟨ring, height, rfl⟩
  · exact hP
  · exact emitBuilding_preserves_inv st ring height hP

/-- The invariant holds for every successful run of
`create_building_geometry`. -/
theorem create_building_geometry_inv (lib : GeomLib) (olat olon : ℝ) (bh : ℚ)
    (q : String) (es : List OsmElement) (bst : BState)
    (h : create_building_geometry lib olat olon bh q es = Except.ok bst) : bInv bst := by
  unfold create_building_geometry at h
  refine foldlM_except_preserve _ bInv (buildStep_preserves_inv lib olat olon bh q)
    es _ bst h ⟨rfl, ?_⟩
  intro l hl i hi
  simp only [List.mem_singleton] at hl
  subst hl
  simp [faceIndicesOf] at hi

/-- C6: Mesh index validity.  In the emitted document every face — the two
ground triangles and every building's bottom, top and wall faces —
references only 1-based vertex indices in `[1, vertexCount]`, where the
final counter equals 4 ground vertices plus the number of building vertex
lines (2n per accepted n-vertex building), maintained by the single
monotonically increasing counter that starts after the ground's 4
vertices. -/
theorem C6_face_index_validity (lib : GeomLib) (b : GeoRect) (bh : ℚ) (q : String)
    (es : List OsmElement) (L : List ObjLine) (bst : BState)
    (hB : create_building_geometry lib ((b.south + b.north) / 2) ((b.west + b.east) / 2)
      bh q (es.filter fun e => buildingTagged e) = Except.ok bst)
    (hL : scene_obj_lines b lib bh q es = Except.ok L) :
    bst.vertex_count = 4 + countV bst.lines ∧
      ∀ l ∈ L, ∀ i ∈ faceIndicesOf l, 1 ≤ i ∧ i ≤ bst.vertex_count := by
  obtain ⟨h1, h2⟩ := create_building_geometry_inv _ _ _ _ _ _ _ hB
  have hvc4 : 4 ≤ bst.vertex_count := by omega
  have hLeq : L = [ObjLine.comment "Perfect Aligned 3D Map", ObjLine.comment "User bbox",
      ObjLine.comment "Origin", ObjLine.mtllib "perfect_materials.mtl"] ++
      (create_perfect_ground_plane b).1 ++ bst.lines := by
    simp only [scene_obj_lines] at hL
    rw [hB, except_bind_ok] at hL
    exact (Except.ok.inj hL).symm
  refine ⟨h1, ?_⟩
  intro l hl i hi
  rw [hLeq, List.mem_append] at hl
  rcases hl with hl | hbst
  · rw [List.mem_append] at hl
    rcases hl with hhead | hground
    · simp only [List.mem_cons, List.not_mem_nil, or_false] at hhead
      rcases hhead with rfl | rfl | rfl | rfl <;> simp [faceIndicesOf] at hi
    · simp only [create_perfect_ground_plane] at hground
      simp only [List.mem_cons, List.not_mem_nil, or_false] at hground
      rcases hground with rfl | rfl | rfl | rfl | rfl | rfl | rfl | rfl | rfl | rfl |
        rfl | rfl | rfl | rfl | rfl | rfl <;> simp [faceIndicesOf] at hi <;> omega
  · exact h2 l hbst i hi

/-- Witness for C6 at an empty element batch. -/
theorem C6_face_index_validity_witness :
    (create_building_geometry okLib (((0 : ℝ) + 0) / 2) (((0 : ℝ) + 0) / 2) 10 "medium"
        (List.filter (fun e => buildingTagged e) []) =
      Except.ok (BState.mk [ObjLine.comment "Buildings positioned on perfect ground"] 4 0) ∧
      scene_obj_lines (GeoRect.mk 0 0 0 0) okLib 10 "medium" [] =
        Except.ok ([ObjLine.comment "Perfect Aligned 3D Map", ObjLine.comment "User bbox",
          ObjLine.comment "Origin", ObjLine.mtllib "perfect_materials.mtl"] ++
          (create_perfect_ground_plane (GeoRect.mk 0 0 0 0)).1 ++
          [ObjLine.comment "Buildings positioned on perfect ground"])) ∧
      ((BState.mk [ObjLine.comment "Buildings positioned on perfect ground"] 4 0).vertex_count =
        4 + countV (BState.mk [ObjLine.comment "Buildings positioned on perfect ground"]
          4 0).lines ∧
      ∀ l ∈ ([ObjLine.comment "Perfect Aligned 3D Map", ObjLine.comment "User bbox",
          ObjLine.comment "Origin", ObjLine.mtllib "perfect_materials.mtl"] ++
          (create_perfect_ground_plane (GeoRect.mk 0 0 0 0)).1 ++
          [ObjLine.comment "Buildings positioned on perfect ground"]),
        ∀ i ∈ faceIndicesOf l, 1 ≤ i ∧
          i ≤ (BState.mk [ObjLine.comment "Buildings positioned on perfect ground"]
            4 0).vertex_count) :=
  ⟨⟨rfl, rfl⟩,
    C6_face_index_validity okLib (GeoRect.mk 0 0 0 0) 10 "medium" [] _ _ rfl rfl⟩
